import Mathlib

/-!
Verification of the 1-Wire bus driver (owb.c) and DS18B20 temperature sensor
driver (ds18b20.c) of the esp32-ds18b20-example repository.

The C sources are shallowly embedded below.  Machine integers are modelled as
Nat (for the unsigned byte values, with explicit masking where the C code
wraps) and Int (for C int variables).  Bus input/output is modelled
explicitly: a search environment carries the presence-pulse outcome of the
reset and the stream of bit pairs returned by consecutive read-bit slots.
-/

namespace Owb

/-- The 256-entry Dallas/Maxim CRC8 lookup table from owb.c. -/
def crc_table : List Nat := [
  0, 94, 188, 226, 97, 63, 221, 131, 194, 156, 126, 32, 163, 253, 31, 65,
  157, 195, 33, 127, 252, 162, 64, 30, 95, 1, 227, 189, 62, 96, 130, 220,
  35, 125, 159, 193, 66, 28, 254, 160, 225, 191, 93, 3, 128, 222, 60, 98,
  190, 224, 2, 92, 223, 129, 99, 61, 124, 34, 192, 158, 29, 67, 161, 255,
  70, 24, 250, 164, 39, 121, 155, 197, 132, 218, 56, 102, 229, 187, 89, 7,
  219, 133, 103, 57, 186, 228, 6, 88, 25, 71, 165, 251, 120, 38, 196, 154,
  101, 59, 217, 135, 4, 90, 184, 230, 167, 249, 27, 69, 198, 152, 122, 36,
  248, 166, 68, 26, 153, 199, 37, 123, 58, 100, 134, 216, 91, 5, 231, 185,
  140, 210, 48, 110, 237, 179, 81, 15, 78, 16, 242, 172, 47, 113, 147, 205,
  17, 79, 173, 243, 112, 46, 204, 146, 211, 141, 111, 49, 178, 236, 14, 80,
  175, 241, 19, 77, 206, 144, 114, 44, 109, 51, 209, 143, 12, 82, 176, 238,
  50, 108, 142, 208, 83, 13, 239, 177, 240, 174, 76, 18, 145, 207, 45, 115,
  202, 148, 118, 40, 171, 245, 23, 73, 8, 86, 180, 234, 105, 55, 213, 139,
  87, 9, 235, 181, 54, 104, 138, 212, 149, 203, 41, 119, 244, 170, 72, 22,
  233, 183, 85, 11, 136, 214, 52, 106, 43, 117, 151, 201, 74, 20, 246, 168,
  116, 42, 200, 150, 21, 75, 169, 247, 182, 232, 10, 84, 215, 137, 107, 53]

/-- owb.c _calc_crc: one table-driven CRC8 accumulation step,
table lookup at index crc XOR data (both arguments are uint8_t, so the
index is below 256 and the lookup is in range; getD supplies a default
that is never reached for byte-sized arguments). -/
def calc_crc (crc data : Nat) : Nat :=
  crc_table.getD (crc ^^^ data) 0

/-- Modelled from the spec: owb_crc8_bytes is declared in owb.h and called by
ds18b20.c but its definition is not among the provided sources; per spec
section 4.2 it folds the one-byte CRC8 step over a buffer, starting from the
given accumulator. -/
def owb_crc8_bytes (crc : Nat) (data : List Nat) : Nat :=
  data.foldl calc_crc crc

/-- owb.h OneWireBus_SearchState: the search cursor.  The ROM code is the
8-byte buffer rom_code.bytes; the two discrepancy positions are C ints and
the last-device flag is used as a boolean. -/
structure SearchState where
  rom_code : List Nat
  last_discrepancy : Int
  last_family_discrepancy : Int
  last_device_flag : Bool
  deriving Repr, DecidableEq

/-- The bus environment seen by one _search call: the outcome of the
presence pulse after reset, and the stream of (id_bit, cmp_id_bit) pairs
returned by the successive pairs of read-bit slots. -/
structure SearchEnv where
  presence : Bool
  bits : Nat → Bool × Bool

/-- The local variables of the search loop in owb.c _search, together with
the mutated state and the position in the bus read stream (bit_index counts
the bit pairs consumed so far; it models the bus, not a C variable). -/
structure SearchVars where
  id_bit_number : Int
  last_zero : Int
  rom_byte_number : Nat
  rom_byte_mask : Nat
  crc8 : Nat
  bit_index : Nat
  state : SearchState
  deriving Repr, DecidableEq

/-- owb.c _search, discrepancy branch: the search direction chosen when the
bit and its complement both read 0.  Mirrors lines 290-294: replay the bit
stored in the in-progress ROM code when before the last discrepancy,
otherwise 1 exactly at the last discrepancy and 0 after it. -/
def searchDirection (st : SearchState) (id_bit_number : Int)
    (rom_byte_number rom_byte_mask : Nat) : Nat :=
  if id_bit_number < st.last_discrepancy then
    if st.rom_code.getD rom_byte_number 0 &&& rom_byte_mask > 0 then 1 else 0
  else
    if id_bit_number = st.last_discrepancy then 1 else 0

/-- owb.c _search lines 307-328: record the chosen direction bit in the ROM
byte under the current mask, write the direction to the bus (implicit in the
model), advance the bit counter and mask, and on mask wrap-around accumulate
the completed byte into the CRC and move to the next ROM byte.  The AND with
(255 XOR mask) models the C expression rom_code[n] &= ~mask on uint8_t
values. -/
def searchBodyWrite (sd : Nat) (v : SearchVars) : SearchVars :=
  let byte := v.state.rom_code.getD v.rom_byte_number 0
  let byte2 := if sd = 1 then byte ||| v.rom_byte_mask
               else byte &&& (255 ^^^ v.rom_byte_mask)
  let rom2 := v.state.rom_code.set v.rom_byte_number byte2
  let mask2 := (v.rom_byte_mask <<< 1) % 256
  if mask2 = 0 then
    { v with state := { v.state with rom_code := rom2 },
             id_bit_number := v.id_bit_number + 1,
             rom_byte_mask := 1,
             rom_byte_number := v.rom_byte_number + 1,
             crc8 := calc_crc v.crc8 (rom2.getD v.rom_byte_number 0),
             bit_index := v.bit_index + 1 }
  else
    { v with state := { v.state with rom_code := rom2 },
             id_bit_number := v.id_bit_number + 1,
             rom_byte_mask := mask2,
             bit_index := v.bit_index + 1 }

/-- owb.c _search lines 281-329: one execution of the loop body after the
two bits (ib, cb) were read and found not both 1.  A complementary pair
takes the id bit as direction; a discrepancy (both 0) consults
searchDirection and, when direction 0 is chosen, records the position in
last_zero and, within the first 8 bit positions, in
last_family_discrepancy. -/
def searchBody (ib cb : Bool) (v : SearchVars) : SearchVars :=
  if ib ≠ cb then
    searchBodyWrite (if ib then 1 else 0) v
  else
    let sd := searchDirection v.state v.id_bit_number v.rom_byte_number v.rom_byte_mask
    let v2 :=
      if sd = 0 then
        { v with last_zero := v.id_bit_number,
                 state := { v.state with last_family_discrepancy :=
                   if v.id_bit_number < 9 then v.id_bit_number
                   else v.state.last_family_discrepancy } }
      else v
    searchBodyWrite sd v2

/-- owb.c _search lines 272-331: the do-while search loop.  Each pass reads
a bit and its complement at the current stream position, breaks when both
read 1, otherwise runs the body and continues while rom_byte_number < 8.
Starting from the initial loop variables the loop performs at most 64 body
executions (rom_byte_number reaches 8 after exactly 64), so fuel 64 realises
the C loop exactly. -/
def searchLoop (bits : Nat → Bool × Bool) : Nat → SearchVars → SearchVars
  | 0, v => v
  | fuel + 1, v =>
    let p := bits v.bit_index
    if p.1 && p.2 then v
    else
      let v2 := searchBody p.1 p.2 v
      if v2.rom_byte_number < 8 then searchLoop bits fuel v2 else v2

/-- owb.c _search lines 242-251: the initial values of the loop variables. -/
def searchInitVars (st : SearchState) : SearchVars :=
  { id_bit_number := 1, last_zero := 0, rom_byte_number := 0, rom_byte_mask := 1,
    crc8 := 0, bit_index := 0, state := st }

/-- owb.c _search reset of the cursor counters (lines 261-264 and 349-352):
last_discrepancy, last_device_flag and last_family_discrepancy return to
their initial values; the ROM code bytes are left as they are. -/
def resetSearchState (st : SearchState) : SearchState :=
  { st with last_discrepancy := 0, last_device_flag := false,
            last_family_discrepancy := 0 }

/-- owb.c _search lines 333-344: determine the outcome after the loop.  The
search was successful when neither fewer than 64 bits were accumulated nor
the CRC8 is non-zero; on success last_discrepancy becomes this pass's
last_zero and, when it is zero, the last-device flag is set. -/
def searchOutcome (v : SearchVars) : Bool × SearchState :=
  if ¬ (v.id_bit_number < 65 ∨ v.crc8 ≠ 0) then
    let st : SearchState := { v.state with last_discrepancy := v.last_zero }
    let st := if st.last_discrepancy = 0 then
                { st with last_device_flag := true }
              else st
    (true, st)
  else (false, v.state)

/-- owb.c _search lines 347-354: if no device was found, or ROM byte 0 is
zero, reset the counters so the next search starts afresh and report
failure. -/
def searchFinalize (res : Bool × SearchState) : Bool × SearchState :=
  if ¬ res.1 ∨ res.2.rom_code.getD 0 0 = 0 then
    (false, resetSearchState res.2)
  else res

/-- owb.c _search lines 238-357: one full search call over a given bus
environment.  Returns the C return value together with the final cursor.
When the last-device flag is already set the loop is skipped and the final
block resets the cursor; a failed reset (no presence pulse) resets the
cursor and returns early. -/
def owb_search (env : SearchEnv) (state : SearchState) : Bool × SearchState :=
  if ¬ state.last_device_flag then
    if ¬ env.presence then
      (false, resetSearchState state)
    else
      searchFinalize (searchOutcome (searchLoop env.bits 64 (searchInitVars state)))
  else
    (false, resetSearchState state)

/-- owb.c owb_search_first lines 506-522: zero the cursor's ROM code and
counters, then run the shared search step. -/
def owb_search_first (env : SearchEnv) (state : SearchState) : Bool × SearchState :=
  owb_search env
    { state with rom_code := List.replicate 8 0, last_discrepancy := 0,
                 last_family_discrepancy := 0, last_device_flag := false }

/-- owb.c owb_search_next lines 524-536: run the shared search step on the
existing cursor. -/
def owb_search_next (env : SearchEnv) (state : SearchState) : Bool × SearchState :=
  owb_search env state

/-- The cursor reset described by the spec's calling convention: zero the
ROM code, both discrepancy counters and the exhausted flag.  Stated from the
spec's words for the refinement claim C5. -/
def spec_reset_cursor (state : SearchState) : SearchState :=
  { state with rom_code := List.replicate 8 0, last_discrepancy := 0,
               last_family_discrepancy := 0, last_device_flag := false }

end Owb

namespace Ds18b20

/-- Modelled from the spec: the DS18B20_RESOLUTION enumeration is used by
ds18b20.c but its definition is not among the provided sources.  Per the
spec the stored resolution value ranges over 9 to 12 (bits) with an explicit
invalid sentinel outside that range; we take the sentinel value -1 (any
value outside 9..12 behaves identically under check_resolution). -/
def DS18B20_RESOLUTION_INVALID : Int := -1

/-- Modelled from the spec: enumeration value for 9-bit resolution. -/
def DS18B20_RESOLUTION_9_BIT : Int := 9

/-- Modelled from the spec: enumeration value for 12-bit resolution. -/
def DS18B20_RESOLUTION_12_BIT : Int := 12

/-- ds18b20.c _check_resolution lines 142-145: a resolution is valid when it
lies between the 9-bit and 12-bit enumeration values. -/
def check_resolution (resolution : Int) : Bool :=
  DS18B20_RESOLUTION_9_BIT ≤ resolution ∧ resolution ≤ DS18B20_RESOLUTION_12_BIT

/-- ds18b20.c line 314 inside ds18b20_set_resolution: the configuration byte
written for a requested resolution, (((resolution - 1) & 0x03) << 5) | 0x1f.
The C bitwise AND of an int with 0x03 keeps the low two bits of the
two's-complement representation, which is the value modulo 4 (Int.emod into
0..3). -/
def config_from_resolution (resolution : Int) : Nat :=
  (((resolution - 1).emod 4).toNat <<< 5) ||| 0x1f

/-- ds18b20.c line 349 inside ds18b20_read_resolution: decode a
configuration byte by extracting bits 5-6 and adding the 9-bit enumeration
value. -/
def resolution_from_config (configuration : Nat) : Int :=
  ((configuration >>> 5) &&& 0x03 : Nat) + DS18B20_RESOLUTION_9_BIT

/-- ds18b20.c ds18b20_read_resolution lines 340-361 as a function of the
configuration byte read back from the scratchpad: decode, and fall back to
the invalid sentinel when the decoded value fails the range check. -/
def ds18b20_read_resolution (configuration : Nat) : Int :=
  let resolution := resolution_from_config configuration
  if check_resolution resolution then resolution else DS18B20_RESOLUTION_INVALID

/-- ds18b20.c ds18b20_set_resolution lines 302-338, write decision: given
the cached resolution stored in the info structure and the requested
resolution, either a scratchpad write of the encoded configuration byte is
performed (some config) or the operation is rejected without any write
(none).  The source guards the operation with
check_resolution(ds18b20_info->resolution), i.e. on the cached value. -/
def ds18b20_set_resolution_write (cached requested : Int) : Option Nat :=
  if check_resolution cached then some (config_from_resolution requested)
  else none

/-- ds18b20.c line 52: maximum conversion time at 12-bit resolution in
milliseconds. -/
def T_CONV : Int := 750

/-- ds18b20.c _wait_for_conversion lines 147-160, expressed as the number of
scheduler ticks passed to vTaskDelay; the host tick period in milliseconds
(portTICK_PERIOD_MS, a positive integer) is a parameter.  The C float
intermediates are modelled exactly in the rationals: 750 / 2^(12-r) is
exactly representable in binary floating point for r in 9..12, and dividing
it by an integer tick period and taking the ceiling cannot cross an integer
boundary under float rounding (the quotient would have to be within half an
ulp of an integer, impossible for these magnitudes), so the float ceil
agrees with the rational ceiling.  Outside the valid range the function
performs no delay (modelled as 0 ticks). -/
def wait_for_conversion_ticks (resolution : Int) (tick_period_ms : Nat) : Int :=
  if check_resolution resolution then
    let divisor : Nat := 1 <<< (DS18B20_RESOLUTION_12_BIT - resolution).toNat
    let max_conversion_time : ℚ := (T_CONV : ℚ) / (divisor : ℚ)
    ⌈max_conversion_time / (tick_period_ms : ℚ)⌉
  else 0

/-- ds18b20.c line 168: masks to remove undefined bits from the result,
indexed by resolution - 9.  The C initialiser is the uint8_t values of
NOT 0x03, NOT 0x02, NOT 0x01, NOT 0x00. -/
def lsb_mask : List Nat := [0xFC, 0xFD, 0xFE, 0xFF]

/-- The C cast of a value below 2^16 to int16_t: two's-complement
reinterpretation. -/
def toInt16 (n : Nat) : Int :=
  if n % 65536 < 32768 then (n % 65536 : Nat) else (n % 65536 : Nat) - 65536

/-- ds18b20.c _decode_temp lines 162-178: mask the LSB with the table entry
for the resolution, combine with the MSB into a signed 16-bit raw value and
divide by 16.  The float division by 16 of an int16 value is exact, so the
result is modelled in the rationals. -/
def decode_temp (lsb msb : Nat) (resolution : Int) : ℚ :=
  if check_resolution resolution then
    let lsb_masked := lsb_mask.getD (resolution - DS18B20_RESOLUTION_9_BIT).toNat 0 &&& lsb
    let raw : Int := toInt16 ((msb <<< 8) ||| lsb_masked)
    (raw : ℚ) / 16
  else 0

/-- ds18b20.c ds18b20_read_temp lines 401-447 as a function of the device's
use_crc flag, the cached resolution and the scratchpad bytes the device
returns: without CRC only the first two bytes are read and decoded; with CRC
nine bytes are read, and a non-zero accumulated CRC8 over them forces both
temperature bytes to zero.  The Bool result records whether a CRC error was
reported. -/
def ds18b20_read_temp (use_crc : Bool) (resolution : Int) (buffer : List Nat) :
    ℚ × Bool :=
  if ¬ use_crc then
    (decode_temp (buffer.getD 0 0) (buffer.getD 1 0) resolution, false)
  else
    if Owb.owb_crc8_bytes 0 (buffer.take 9) ≠ 0 then
      (decode_temp 0 0 resolution, true)
    else
      (decode_temp (buffer.getD 0 0) (buffer.getD 1 0) resolution, false)

end Ds18b20

/-! Concrete inputs used by witnesses and counterexamples. -/

/-- A valid ROM code: family byte 1, zero serial number, and its own CRC8
byte (61), so that the byte-wise CRC8 over all 8 bytes is zero. -/
def romW : List Nat := [1, 0, 0, 0, 0, 0, 0, 61]

/-- A bus on which every read-bit pair is complementary and spells out romW
bit by bit, least significant bit of byte 0 first: a single-device bus. -/
def bitsW (k : Nat) : Bool × Bool :=
  let b := (romW.getD (k / 8) 0).testBit (k % 8)
  (b, !b)

/-- Single-device environment answering with romW. -/
def envW : Owb.SearchEnv := ⟨true, bitsW⟩

/-- Environment whose reads are all (0, 1): every device bit agrees on 0,
so the search accumulates the all-zero ROM code without any discrepancy. -/
def envZ : Owb.SearchEnv := ⟨true, fun _ => (false, true)⟩

/-- A freshly initialised search cursor. -/
def stZero : Owb.SearchState := ⟨List.replicate 8 0, 0, 0, false⟩

/-- A cursor whose exhausted (last-device) flag is already set. -/
def stFlag : Owb.SearchState := ⟨List.replicate 8 0, 3, 2, true⟩

/-- Loop variables at 1-based bit position 3 (byte 0, mask 4) over a cursor
that remembers a later discrepancy at position 5 and has bit 2 of ROM byte 0
set from the previous pass. -/
def vW2 : Owb.SearchVars :=
  { id_bit_number := 3, last_zero := 0, rom_byte_number := 0, rom_byte_mask := 4,
    crc8 := 0, bit_index := 2, state := ⟨[4, 0, 0, 0, 0, 0, 0, 0], 5, 0, false⟩ }

/-! Helper lemmas. -/

/-- A bitwise AND with a single power of two is positive exactly when the
corresponding bit is set. -/
theorem and_two_pow_pos_iff (b j : Nat) : 0 < b &&& 2 ^ j ↔ b.testBit j := by
  rw [Nat.and_two_pow]
  cases h : b.testBit j <;> simp [h, Nat.pos_pow_of_pos]

/-- searchBodyWrite never changes last_zero. -/
theorem searchBodyWrite_last_zero (sd : Nat) (v : Owb.SearchVars) :
    (Owb.searchBodyWrite sd v).last_zero = v.last_zero := by
  simp only [Owb.searchBodyWrite]
  split <;> rfl

/-- searchBodyWrite never changes last_family_discrepancy. -/
theorem searchBodyWrite_family (sd : Nat) (v : Owb.SearchVars) :
    (Owb.searchBodyWrite sd v).state.last_family_discrepancy
      = v.state.last_family_discrepancy := by
  simp only [Owb.searchBodyWrite]
  split <;> rfl

/-- The outcome is a failure when the loop ended early or the accumulated
CRC8 is non-zero. -/
theorem searchOutcome_fail (v : Owb.SearchVars)
    (h : v.id_bit_number < 65 ∨ v.crc8 ≠ 0) :
    Owb.searchOutcome v = (false, v.state) :=
  if_neg (not_not_intro h)

/-- The outcome never changes the ROM code. -/
theorem searchOutcome_rom (v : Owb.SearchVars) :
    (Owb.searchOutcome v).2.rom_code = v.state.rom_code := by
  simp only [Owb.searchOutcome]
  split
  · split <;> rfl
  · rfl

/-- The final block resets the cursor when no device was found or ROM byte 0
is zero. -/
theorem searchFinalize_reject (res : Bool × Owb.SearchState)
    (h : ¬ res.1 ∨ res.2.rom_code.getD 0 0 = 0) :
    Owb.searchFinalize res = (false, Owb.resetSearchState res.2) :=
  if_pos h

/-- With the last-device flag clear and a presence pulse, a search call is
the loop followed by outcome determination and the final block. -/
theorem owb_search_main (env : Owb.SearchEnv) (state : Owb.SearchState)
    (hf : state.last_device_flag = false) (hp : env.presence = true) :
    Owb.owb_search env state
      = Owb.searchFinalize (Owb.searchOutcome
          (Owb.searchLoop env.bits 64 (Owb.searchInitVars state))) := by
  unfold Owb.owb_search
  rw [if_pos (by simp [hf]), if_neg (by simp [hp])]

/-- Evaluation form of decode_temp at a valid resolution. -/
theorem decode_temp_eq (lsb msb : Nat) (r : Int) (hr : Ds18b20.check_resolution r = true) :
    Ds18b20.decode_temp lsb msb r
      = ((Ds18b20.toInt16 ((msb <<< 8) |||
            (Ds18b20.lsb_mask.getD (r - Ds18b20.DS18B20_RESOLUTION_9_BIT).toNat 0 &&& lsb)) : Int) : ℚ)
          / 16 := by
  unfold Ds18b20.decode_temp
  rw [hr]
  rfl

/-- Decoding the zero temperature bytes gives zero degrees at every
resolution. -/
theorem decode_temp_zero (r : Int) : Ds18b20.decode_temp 0 0 r = 0 := by
  unfold Ds18b20.decode_temp
  split
  · simp [Ds18b20.toInt16]
  · rfl

/-! Claim theorems. -/

/-- C1: for every byte sequence d, folding the table-driven CRC8 accumulator
starting from 0 over d followed by the CRC8 of d yields zero. -/
theorem crc8_self_check (d : List Nat) :
    Owb.owb_crc8_bytes 0 (d ++ [Owb.owb_crc8_bytes 0 d]) = 0 := by
  have h1 : Owb.owb_crc8_bytes 0 (d ++ [Owb.owb_crc8_bytes 0 d])
      = Owb.calc_crc (Owb.owb_crc8_bytes 0 d) (Owb.owb_crc8_bytes 0 d) := by
    show (d ++ [Owb.owb_crc8_bytes 0 d]).foldl Owb.calc_crc 0 = _
    rw [List.foldl_append]
    rfl
  rw [h1]
  unfold Owb.calc_crc
  rw [Nat.xor_self]
  rfl

/-- C2: at a discrepancy (the bit and its complement both read 0), under the
loop invariant tying the ROM byte index and mask to the 1-based bit position
(byte (pos-1)/8, mask 2^((pos-1) mod 8)): before the cursor's last
discrepancy the direction is the bit stored at that position in the
in-progress ROM code; at the last discrepancy it is 1; after it, 0.
Whenever direction 0 is chosen the position is recorded in last_zero, and
last_family_discrepancy is additionally updated exactly when the position
lies within the first 8 bits; otherwise both are left unchanged. -/
theorem search_discrepancy_direction (v : Owb.SearchVars)
    (hbyte : v.rom_byte_number = (v.id_bit_number - 1).toNat / 8)
    (hmask : v.rom_byte_mask = 2 ^ ((v.id_bit_number - 1).toNat % 8)) :
    (v.id_bit_number < v.state.last_discrepancy →
        Owb.searchDirection v.state v.id_bit_number v.rom_byte_number v.rom_byte_mask
          = if (v.state.rom_code.getD ((v.id_bit_number - 1).toNat / 8) 0).testBit
                ((v.id_bit_number - 1).toNat % 8) then 1 else 0) ∧
    (v.id_bit_number = v.state.last_discrepancy →
        Owb.searchDirection v.state v.id_bit_number v.rom_byte_number v.rom_byte_mask = 1) ∧
    (v.state.last_discrepancy < v.id_bit_number →
        Owb.searchDirection v.state v.id_bit_number v.rom_byte_number v.rom_byte_mask = 0) ∧
    (Owb.searchDirection v.state v.id_bit_number v.rom_byte_number v.rom_byte_mask = 0 →
        (Owb.searchBody false false v).last_zero = v.id_bit_number ∧
        (Owb.searchBody false false v).state.last_family_discrepancy
          = if v.id_bit_number < 9 then v.id_bit_number
            else v.state.last_family_discrepancy) ∧
    (Owb.searchDirection v.state v.id_bit_number v.rom_byte_number v.rom_byte_mask ≠ 0 →
        (Owb.searchBody false false v).last_zero = v.last_zero ∧
        (Owb.searchBody false false v).state.last_family_discrepancy
          = v.state.last_family_discrepancy) := by
  have hne : ¬ (false ≠ false) := fun hcon => hcon rfl
  refine ⟨?_, ?_, ?_, ?_, ?_⟩
  · intro h
    unfold Owb.searchDirection
    rw [if_pos h, hbyte, hmask]
    by_cases hb : (v.state.rom_code.getD ((v.id_bit_number - 1).toNat / 8) 0).testBit
        ((v.id_bit_number - 1).toNat % 8) = true
    · rw [if_pos ((and_two_pow_pos_iff _ _).mpr hb), if_pos hb]
    · rw [if_neg (fun hc => hb ((and_two_pow_pos_iff _ _).mp hc)), if_neg hb]
  · intro h
    unfold Owb.searchDirection
    rw [if_neg (by omega), if_pos h]
  · intro h
    unfold Owb.searchDirection
    rw [if_neg (by omega), if_neg (by omega)]
  · intro h
    constructor <;>
      simp [Owb.searchBody, hne, h, searchBodyWrite_last_zero, searchBodyWrite_family]
  · intro h
    constructor <;>
      simp [Owb.searchBody, hne, if_neg h, searchBodyWrite_last_zero, searchBodyWrite_family]

/-- Witness for C2 at bit position 3 with a cursor remembering a later
discrepancy at position 5 and bit 2 of ROM byte 0 set from the previous
pass: the direction replays the stored bit, and since that direction is not
zero, last_zero and last_family_discrepancy are unchanged. -/
theorem search_discrepancy_direction_witness :
    (Owb.searchDirection vW2.state 3 0 4
       = if (Nat.testBit 4 2) then 1 else 0) ∧
    ((Owb.searchBody false false vW2).last_zero = vW2.last_zero ∧
     (Owb.searchBody false false vW2).state.last_family_discrepancy
       = vW2.state.last_family_discrepancy) :=
  ⟨(search_discrepancy_direction vW2 (by decide) (by decide)).1 (by decide),
   (search_discrepancy_direction vW2 (by decide) (by decide)).2.2.2.2 (by decide)⟩

/-- C3: whenever a search call fails to produce a device — the exhausted
flag was already set, no presence pulse, the loop ended early because no
device responded (fewer than the full 64 bits were accumulated), the
accumulated CRC8 over the ROM bytes is non-zero, or the accumulated ROM
code is all-zero — the call returns false and leaves the cursor reset:
last discrepancy 0, last family discrepancy 0, exhausted flag false. -/
theorem search_failure_resets_cursor (env : Owb.SearchEnv) (state : Owb.SearchState)
    (h : state.last_device_flag = true ∨ env.presence = false ∨
         (Owb.searchLoop env.bits 64 (Owb.searchInitVars state)).id_bit_number < 65 ∨
         (Owb.searchLoop env.bits 64 (Owb.searchInitVars state)).crc8 ≠ 0 ∨
         (∀ i, (Owb.searchLoop env.bits 64 (Owb.searchInitVars state)).state.rom_code.getD i 0 = 0)) :
    (Owb.owb_search env state).1 = false ∧
    (Owb.owb_search env state).2.last_discrepancy = 0 ∧
    (Owb.owb_search env state).2.last_family_discrepancy = 0 ∧
    (Owb.owb_search env state).2.last_device_flag = false := by
  by_cases hf : state.last_device_flag = true
  · unfold Owb.owb_search
    rw [if_neg (by simp [hf])]
    exact ⟨rfl, rfl, rfl, rfl⟩
  · have hf2 : state.last_device_flag = false := by simpa using hf
    by_cases hp : env.presence = true
    · rw [owb_search_main env state hf2 hp]
      by_cases hc : (Owb.searchLoop env.bits 64 (Owb.searchInitVars state)).id_bit_number < 65 ∨
          (Owb.searchLoop env.bits 64 (Owb.searchInitVars state)).crc8 ≠ 0
      · rw [searchOutcome_fail _ hc, searchFinalize_reject _ (Or.inl (by simp))]
        exact ⟨rfl, rfl, rfl, rfl⟩
      · have hb0 : (Owb.searchLoop env.bits 64 (Owb.searchInitVars state)).state.rom_code.getD 0 0
            = 0 := by
          rcases h with h | h | h | h | h
          · exact absurd h hf
          · rw [hp] at h; exact absurd h (by simp)
          · exact absurd (Or.inl h) hc
          · exact absurd (Or.inr h) hc
          · exact h 0
        rw [searchFinalize_reject _ (Or.inr (by rw [searchOutcome_rom]; exact hb0))]
        exact ⟨rfl, rfl, rfl, rfl⟩
    · have hp2 : env.presence = false := by simpa using hp
      unfold Owb.owb_search
      rw [if_pos (by simp [hf2]), if_pos (by simp [hp2])]
      exact ⟨rfl, rfl, rfl, rfl⟩

/-- Witness for C3: a cursor with the exhausted flag already set yields no
device and a reset cursor. -/
theorem search_failure_resets_cursor_witness :
    (Owb.owb_search envZ stFlag).1 = false ∧
    (Owb.owb_search envZ stFlag).2.last_discrepancy = 0 ∧
    (Owb.owb_search envZ stFlag).2.last_family_discrepancy = 0 ∧
    (Owb.owb_search envZ stFlag).2.last_device_flag = false :=
  search_failure_resets_cursor envZ stFlag (Or.inl rfl)

/-- C4 (amended): on a successful search pass — presence pulse, flag not
already set, all 64 bits accumulated, accumulated CRC8 zero — and provided
the first accumulated ROM byte is non-zero, the call reports a device, the
cursor's last discrepancy is set to this pass's last_zero, and if that value
is 0 the exhausted flag is set. -/
theorem search_success_sets_cursor (env : Owb.SearchEnv) (state : Owb.SearchState)
    (hflag : state.last_device_flag = false) (hpres : env.presence = true)
    (hfull : ¬ (Owb.searchLoop env.bits 64 (Owb.searchInitVars state)).id_bit_number < 65)
    (hcrc : (Owb.searchLoop env.bits 64 (Owb.searchInitVars state)).crc8 = 0)
    (hb0 : (Owb.searchLoop env.bits 64 (Owb.searchInitVars state)).state.rom_code.getD 0 0 ≠ 0) :
    (Owb.owb_search env state).1 = true ∧
    (Owb.owb_search env state).2.last_discrepancy
      = (Owb.searchLoop env.bits 64 (Owb.searchInitVars state)).last_zero ∧
    ((Owb.searchLoop env.bits 64 (Owb.searchInitVars state)).last_zero = 0 →
      (Owb.owb_search env state).2.last_device_flag = true) := by
  rw [owb_search_main env state hflag hpres]
  have hnc : ¬ ((Owb.searchLoop env.bits 64 (Owb.searchInitVars state)).id_bit_number < 65 ∨
      (Owb.searchLoop env.bits 64 (Owb.searchInitVars state)).crc8 ≠ 0) :=
    not_or.mpr ⟨hfull, not_not_intro hcrc⟩
  unfold Owb.searchOutcome
  rw [if_pos hnc]
  dsimp only
  by_cases hz : (Owb.searchLoop env.bits 64 (Owb.searchInitVars state)).last_zero = 0
  · rw [if_pos hz]
    unfold Owb.searchFinalize
    dsimp only
    rw [if_neg (fun hcon => hcon.elim (fun h1 => h1 rfl) hb0)]
    exact ⟨rfl, rfl, fun _ => rfl⟩
  · rw [if_neg hz]
    unfold Owb.searchFinalize
    dsimp only
    rw [if_neg (fun hcon => hcon.elim (fun h1 => h1 rfl) hb0)]
    exact ⟨rfl, rfl, fun hcz => absurd hcz hz⟩

/-- Counterexample for C4 as stated: on a bus whose reads are all (0, 1)
the search accumulates the all-zero ROM code over a full 64-bit pass with
zero CRC8 and last_zero 0.  The claim then demands that the exhausted flag
be set; the code's final block sees ROM byte 0 equal to zero, resets the
cursor (flag false) and reports no device. -/
theorem search_success_allzero_counterexample :
    (Owb.searchLoop envZ.bits 64 (Owb.searchInitVars stZero)).id_bit_number = 65 ∧
    (Owb.searchLoop envZ.bits 64 (Owb.searchInitVars stZero)).crc8 = 0 ∧
    (Owb.searchLoop envZ.bits 64 (Owb.searchInitVars stZero)).last_zero = 0 ∧
    (Owb.owb_search envZ stZero).1 = false ∧
    ¬ (Owb.owb_search envZ stZero).2.last_device_flag = true := by decide

/-- Witness for the amended C4: the single-device environment answering with
the valid ROM code romW succeeds with no discrepancy, so the cursor's last
discrepancy becomes 0 and the exhausted flag is set. -/
theorem search_success_sets_cursor_witness :
    (Owb.owb_search envW stZero).1 = true ∧
    (Owb.owb_search envW stZero).2.last_discrepancy = 0 ∧
    (Owb.owb_search envW stZero).2.last_device_flag = true := by
  have h := search_success_sets_cursor envW stZero rfl rfl (by decide) (by decide) (by decide)
  exact ⟨h.1, h.2.1.trans (by decide), h.2.2 (by decide)⟩

/-- C5: owb_search_first is the same operation as resetting the cursor (zero
ROM code, zero discrepancy counters, exhausted flag cleared) followed by
owb_search_next: same result and same final state on every bus environment
and every starting state. -/
theorem search_first_eq_reset_then_next (env : Owb.SearchEnv) (state : Owb.SearchState) :
    Owb.owb_search_first env state
      = Owb.owb_search_next env (Owb.spec_reset_cursor state) := rfl

/-- C6: encoding a resolution of 9 to 12 bits into a configuration byte as
ds18b20_set_resolution does and decoding it back as ds18b20_read_resolution
does returns exactly the original resolution. -/
theorem resolution_roundtrip (r : Int) (h9 : 9 ≤ r) (h12 : r ≤ 12) :
    Ds18b20.resolution_from_config (Ds18b20.config_from_resolution r) = r := by
  interval_cases r <;> decide

/-- Witness for C6 at resolution 11. -/
theorem resolution_roundtrip_witness :
    Ds18b20.resolution_from_config (Ds18b20.config_from_resolution 11) = 11 :=
  resolution_roundtrip 11 (by decide) (by decide)

/-- C9: ds18b20_read_temp performs the CRC check exactly when the device's
use-CRC flag is enabled.  With CRC disabled it decodes the first two bytes
read, independent of the remaining scratchpad bytes and with no error
reported; with CRC enabled it reads nine bytes, and when the CRC8
accumulated over them is non-zero both temperature bytes are forced to
zero — the decoded result is 0 — and a CRC error is reported, while a zero
CRC8 decodes the two temperature bytes normally. -/
theorem read_temp_crc_exactly_when_enabled (r : Int) (b0 b1 : Nat) (rest buffer : List Nat) :
    (Ds18b20.ds18b20_read_temp false r (b0 :: b1 :: rest)
        = (Ds18b20.decode_temp b0 b1 r, false)) ∧
    (Owb.owb_crc8_bytes 0 (buffer.take 9) ≠ 0 →
        Ds18b20.ds18b20_read_temp true r buffer = (0, true)) ∧
    (Owb.owb_crc8_bytes 0 (buffer.take 9) = 0 →
        Ds18b20.ds18b20_read_temp true r buffer
          = (Ds18b20.decode_temp (buffer.getD 0 0) (buffer.getD 1 0) r, false)) := by
  refine ⟨?_, ?_, ?_⟩
  · unfold Ds18b20.ds18b20_read_temp
    rw [if_pos (by simp)]
    simp
  · intro hcrc
    unfold Ds18b20.ds18b20_read_temp
    rw [if_neg (by simp), if_pos hcrc, decode_temp_zero]
  · intro hcrc
    unfold Ds18b20.ds18b20_read_temp
    rw [if_neg (by simp), if_neg (not_not_intro hcrc)]

/-- Witness for C9: a nine-byte scratchpad of ones fails the CRC check and
reads 0 with a CRC error; a nine-byte scratchpad of zeroes passes it; with
CRC disabled only the first two bytes matter. -/
theorem read_temp_crc_exactly_when_enabled_witness :
    Owb.owb_crc8_bytes 0 ((List.replicate 9 1).take 9) ≠ 0 ∧
    Ds18b20.ds18b20_read_temp true 12 (List.replicate 9 1) = (0, true) ∧
    Owb.owb_crc8_bytes 0 ((List.replicate 9 0).take 9) = 0 ∧
    Ds18b20.ds18b20_read_temp true 12 (List.replicate 9 0)
      = (Ds18b20.decode_temp ((List.replicate 9 0).getD 0 0)
          ((List.replicate 9 0).getD 1 0) 12, false) ∧
    Ds18b20.ds18b20_read_temp false 12 [0x50, 0x05, 7]
      = (Ds18b20.decode_temp 0x50 0x05 12, false) :=
  ⟨by decide,
   (read_temp_crc_exactly_when_enabled 12 0 0 [] (List.replicate 9 1)).2.1 (by decide),
   by decide,
   (read_temp_crc_exactly_when_enabled 12 0 0 [] (List.replicate 9 0)).2.2 (by decide),
   (read_temp_crc_exactly_when_enabled 12 0x50 0x05 [7] []).1⟩

/-- C10: for a valid resolution the conversion wait requests the ceiling of
(750 / 2^(12-r)) milliseconds divided by the scheduler tick period in
milliseconds, and the blocked duration 750 / 2^(12-r) is 93.75, 187.5, 375
and 750 ms for r = 9, 10, 11, 12 respectively. -/
theorem wait_for_conversion_ticks_spec (r : Int) (p : Nat) (hp : 0 < p)
    (h9 : 9 ≤ r) (h12 : r ≤ 12) :
    Ds18b20.wait_for_conversion_ticks r p
      = ⌈(750 : ℚ) / 2 ^ (12 - r).toNat / (p : ℚ)⌉ ∧
    (r = 9 → (750 : ℚ) / 2 ^ (12 - r).toNat = 375/4) ∧
    (r = 10 → (750 : ℚ) / 2 ^ (12 - r).toNat = 375/2) ∧
    (r = 11 → (750 : ℚ) / 2 ^ (12 - r).toNat = 375) ∧
    (r = 12 → (750 : ℚ) / 2 ^ (12 - r).toNat = 750) := by
  have hchk : Ds18b20.check_resolution r = true := by
    unfold Ds18b20.check_resolution Ds18b20.DS18B20_RESOLUTION_9_BIT
      Ds18b20.DS18B20_RESOLUTION_12_BIT
    simp only [decide_eq_true_eq]
    exact ⟨h9, h12⟩
  refine ⟨?_, ?_, ?_, ?_, ?_⟩
  · unfold Ds18b20.wait_for_conversion_ticks
    rw [hchk]
    dsimp only
    unfold Ds18b20.T_CONV Ds18b20.DS18B20_RESOLUTION_12_BIT
    rw [Nat.one_shiftLeft]
    push_cast
    rfl
  · intro h; subst h; norm_num [show Int.toNat 3 = 3 from rfl]
  · intro h; subst h; norm_num [show Int.toNat 2 = 2 from rfl]
  · intro h; subst h; norm_num [show Int.toNat 1 = 1 from rfl]
  · intro h; subst h; norm_num [show Int.toNat 0 = 0 from rfl]

/-- Witness for C10 at 10-bit resolution with a 10 ms tick period:
ceiling of 187.5 / 10 is 19 ticks. -/
theorem wait_for_conversion_ticks_spec_witness :
    (0:Nat) < 10 ∧ Ds18b20.wait_for_conversion_ticks 10 10 = 19 := by
  have h := wait_for_conversion_ticks_spec 10 10 (by decide) (by decide) (by decide)
  refine ⟨by decide, h.1.trans ?_⟩
  rw [show ((12:Int) - 10).toNat = 2 from rfl, Int.ceil_eq_iff]
  norm_num

/-- C7 is violated by the code: ds18b20_set_resolution guards the operation
with a range check on the cached resolution rather than on the requested
one.  With a valid cached resolution 12 a request for the out-of-range
resolution 13 is not rejected: a scratchpad write is performed, and the
configuration byte written (0x1f) is the encoding of 9-bit resolution, so
the out-of-range request is silently mapped into range.  The reject-branch
log message prints the requested value, and the spec demands rejection, so
the cached-value check is a slip. -/
theorem set_resolution_accepts_out_of_range_request :
    Ds18b20.ds18b20_set_resolution_write 12 13 = some 0x1f ∧
    Ds18b20.config_from_resolution 13 = Ds18b20.config_from_resolution 9 ∧
    Ds18b20.check_resolution 13 = false := by decide

/-- C8 is violated by the code: the mask table entries NOT 0x03, NOT 0x02,
NOT 0x01, NOT 0x00 do not clear the lowest 12 - r undefined bits.  At 9-bit
resolution the lowest three bits of the LSB are undefined and the claimed
masking of LSB 0x07 would give raw 0 and temperature 0; the code's mask 0xFC
clears only two bits and decodes LSB 0x07, MSB 0x00 to 1/4 degrees.  The
spec's concrete 12-bit examples do hold. -/
theorem decode_temp_mask_bug :
    Ds18b20.decode_temp 0x07 0x00 9 = 1/4 ∧
    ((0x07 : Nat) >>> 3) <<< 3 = 0 ∧
    Ds18b20.decode_temp 0x07 0x00 9 ≠ 0 ∧
    Ds18b20.lsb_mask.getD 0 0 = 0xFC ∧
    Ds18b20.decode_temp 0x50 0x05 12 = 85 ∧
    Ds18b20.decode_temp 0xF8 0xFF 12 = -(1/2) := by
  have e9 : Ds18b20.decode_temp 0x07 0x00 9 = 1/4 := by
    rw [decode_temp_eq _ _ _ (by decide),
      show Ds18b20.toInt16 ((0 <<< 8) |||
        (Ds18b20.lsb_mask.getD (((9:Int)) - Ds18b20.DS18B20_RESOLUTION_9_BIT).toNat 0 &&& 7)) = 4
        from by decide]
    norm_num
  refine ⟨e9, by decide, by rw [e9]; norm_num, by decide, ?_, ?_⟩
  · rw [decode_temp_eq _ _ _ (by decide),
      show Ds18b20.toInt16 ((5 <<< 8) |||
        (Ds18b20.lsb_mask.getD (((12:Int)) - Ds18b20.DS18B20_RESOLUTION_9_BIT).toNat 0 &&& 80)) = 1360
        from by decide]
    norm_num
  · rw [decode_temp_eq _ _ _ (by decide),
      show Ds18b20.toInt16 ((255 <<< 8) |||
        (Ds18b20.lsb_mask.getD (((12:Int)) - Ds18b20.DS18B20_RESOLUTION_9_BIT).toNat 0 &&& 248)) = -8
        from by decide]
    norm_num
